import Mathlib

/-!
Verification of the classification, recommendation, metric-fallback and
summary logic of `ecs_cluster_inventory.py`, shallowly embedded in Lean.
Percentages and thresholds are modelled as rationals, utilization levels
as the strings the program uses, and fallible external calls as values of
`Except` or `Option` types.
-/

namespace EcsInventory

/-- Default CPU thresholds of the script (`DEFAULT_CPU_LOW_MAX`, `DEFAULT_CPU_MED_MAX`). -/
def DEFAULT_CPU_LOW_MAX : Rat := 40

def DEFAULT_CPU_MED_MAX : Rat := 69

/-- Default memory thresholds of the script. -/
def DEFAULT_MEM_LOW_MAX : Rat := 35

def DEFAULT_MEM_MED_MAX : Rat := 69

/-- Embedding of `classify` (lines 76-83): absent value gives `no_data`,
then the value is bucketed by `< low_max`, `<= med_max`, else `high`. -/
def classify (value_pct : Option Rat) (low_max med_max : Rat) : String :=
  match value_pct with
  | none => "no_data"
  | some v =>
    if v < low_max then "low"
    else if v ≤ med_max then "medium"
    else "high"

/-- Embedding of `cpu_units_to_vcpu` (lines 86-92): divide CPU units by 1024. -/
def cpu_units_to_vcpu : Option Int → Option Rat
  | none => none
  | some u => some ((u : Rat) / 1024)

/-- Embedding of `memory_mb_to_gb` (lines 95-101): divide MB by 1024. -/
def memory_mb_to_gb : Option Int → Option Rat
  | none => none
  | some m => some ((m : Rat) / 1024)

/-- Embedding of `recommendation` (lines 104-126): a first-match-wins chain of
guards over the two level strings and the running count. -/
def recommendation (cpu_level mem_level : String) (running : Nat) : String :=
  if running = 0 then
    "Running=0. Service has no running tasks: review if it can be deactivated/removed or kept on-demand."
  else if cpu_level = "high" ∧ (mem_level = "low" ∨ mem_level = "medium") then
    "High CPU: possible bottleneck. Consider increasing CPU and/or enabling autoscaling (keep memory)."
  else if mem_level = "high" then
    "High memory (OOMKill risk). Consider increasing memory and investigate leak/cache/heap."
  else if cpu_level = "low" ∧ mem_level = "low" then
    "Low CPU and memory: over-provisioned. Consider downsizing CPU/memory and/or using FARGATE_SPOT."
  else if cpu_level = "low" ∧ (mem_level = "medium" ∨ mem_level = "high") then
    "Idle CPU: consider reducing CPU while maintaining memory."
  else if (cpu_level = "medium" ∨ cpu_level = "high") ∧ mem_level = "low" then
    "Idle memory: consider reducing memory (carefully) while maintaining CPU."
  else if cpu_level = "no_data" ∨ mem_level = "no_data" then
    "Incomplete metrics: validate Container Insights / ECS metrics in CloudWatch and re-evaluate."
  else
    "Looks OK: monitor peaks and adjust with historical data (7-14 days)."

/-- The four utilization level strings `classify` can produce. -/
def levelStrings : List String := ["low", "medium", "high", "no_data"]

/-- The eight message strings `recommendation` can produce, in rule order. -/
def recommendationMessages : List String :=
  ["Running=0. Service has no running tasks: review if it can be deactivated/removed or kept on-demand.",
   "High CPU: possible bottleneck. Consider increasing CPU and/or enabling autoscaling (keep memory).",
   "High memory (OOMKill risk). Consider increasing memory and investigate leak/cache/heap.",
   "Low CPU and memory: over-provisioned. Consider downsizing CPU/memory and/or using FARGATE_SPOT.",
   "Idle CPU: consider reducing CPU while maintaining memory.",
   "Idle memory: consider reducing memory (carefully) while maintaining CPU.",
   "Incomplete metrics: validate Container Insights / ECS metrics in CloudWatch and re-evaluate.",
   "Looks OK: monitor peaks and adjust with historical data (7-14 days)."]

/-- One CloudWatch datapoint as `get_metric_avg` consumes it: a timestamp for the
sort on line 257, and an optional Average statistic (datapoints missing the
Average key are dropped on line 258). -/
structure Datapoint where
  timestamp : Int
  average : Option Rat
deriving DecidableEq

/-- Embedding of `get_metric_avg` (lines 235-263).  The CloudWatch call either
raises (modelled as `Except.error` with the message) or returns the datapoint
list; any error is swallowed and turned into `none`.  Otherwise the datapoints
are sorted by timestamp, their Average values extracted, and the mean returned,
with `none` when no datapoints or no Average values exist. -/
def get_metric_avg (resp : Except String (List Datapoint)) : Option Rat :=
  match resp with
  | .error _ => none
  | .ok dps =>
    if dps.isEmpty then none
    else
      let vals :=
        (List.insertionSort (fun a b => a.timestamp ≤ b.timestamp) dps).filterMap
          (fun dp => dp.average)
      if vals.isEmpty then none
      else some (vals.sum / (vals.length : Rat))

/-- Embedding of `fetch_cpu_mem_pct` (lines 266-295), over the results of the
four per-source metric lookups: the ContainerInsights pair is returned with its
label when either of its values is present, otherwise the AWS/ECS pair under
the same rule, otherwise two absent values labelled `no_data`. -/
def fetch_cpu_mem_pct (ins_cpu ins_mem ecs_cpu ecs_mem : Option Rat) :
    Option Rat × Option Rat × String :=
  if ins_cpu.isSome || ins_mem.isSome then (ins_cpu, ins_mem, "ECS/ContainerInsights")
  else if ecs_cpu.isSome || ecs_mem.isSome then (ecs_cpu, ecs_mem, "AWS/ECS")
  else (none, none, "no_data")

/-- Embedding of the `ServiceRow` dataclass (lines 163-182), plus the
`metrics_source` attribute set on line 528. -/
structure ServiceRow where
  account_id : String
  region : String
  cluster : String
  service : String
  task_definition_arn : String
  cpu_units : Option Int
  vcpu : Option Rat
  memory_mb : Option Int
  memory_gb : Option Rat
  capacity_providers : String
  desired : Nat
  running : Nat
  pending : Nat
  cpu_pct : Option Rat
  mem_pct : Option Rat
  cpu_level : String
  mem_level : String
  action : String
  metrics_source : String
deriving DecidableEq

/-- Embedding of the row construction in the service loop of
`collect_for_profile` (lines 482-528): the derived fields are computed from the
percentages, thresholds and running count exactly as on lines 491-492 and
504-506, and stored in the row. -/
def build_service_row (account_id region cluster_name svc_name task_def_arn : String)
    (cpu_units memory_mb : Option Int) (cap_prov : String)
    (desired running pending : Nat) (cpu_pct mem_pct : Option Rat)
    (metrics_source : String)
    (cpu_low_max cpu_med_max mem_low_max mem_med_max : Rat) : ServiceRow :=
  let vcpu := if cpu_units.isSome then cpu_units_to_vcpu cpu_units else none
  let mem_gb := if memory_mb.isSome then memory_mb_to_gb memory_mb else none
  let cpu_level := classify cpu_pct cpu_low_max cpu_med_max
  let mem_level := classify mem_pct mem_low_max mem_med_max
  let action := recommendation cpu_level mem_level running
  { account_id := account_id
    region := region
    cluster := cluster_name
    service := svc_name
    task_definition_arn := task_def_arn
    cpu_units := cpu_units
    vcpu := vcpu
    memory_mb := memory_mb
    memory_gb := mem_gb
    capacity_providers := cap_prov
    desired := desired
    running := running
    pending := pending
    cpu_pct := cpu_pct
    mem_pct := mem_pct
    cpu_level := cpu_level
    mem_level := mem_level
    action := action
    metrics_source := metrics_source }

/-- Embedding of the sort key `k_cpu` of `print_summary` (lines 364-365): an
absent CPU percentage is replaced by the sentinel -1. -/
def k_cpu (r : ServiceRow) : Rat :=
  match r.cpu_pct with
  | some v => v
  | none => -1

/-- Embedding of the sort key `k_mem` of `print_summary` (lines 367-368). -/
def k_mem (r : ServiceRow) : Rat :=
  match r.mem_pct with
  | some v => v
  | none => -1

/-- Embedding of the `bottlenecks` filter of `print_summary` (line 360). -/
def bottlenecks (rows : List ServiceRow) : List ServiceRow :=
  rows.filter (fun r => decide (0 < r.running ∧ (r.cpu_level = "high" ∨ r.mem_level = "high")))

/-- Embedding of the `oversized` filter of `print_summary` (line 361). -/
def oversized (rows : List ServiceRow) : List ServiceRow :=
  rows.filter (fun r => decide (0 < r.running ∧ r.cpu_level = "low" ∧ r.mem_level = "low"))

/-- Embedding of the `stopped` filter of `print_summary` (line 362). -/
def stopped (rows : List ServiceRow) : List ServiceRow :=
  rows.filter (fun r => decide (r.running = 0))

/-- The rows printed under Top bottlenecks by CPU% (line 378): the bottleneck
group stably sorted by `k_cpu` descending (Python `sorted` with `reverse=True`
is a stable sort; a stable descending sort is uniquely determined, so stable
`insertionSort` with the reversed key order computes the same list), then the
first `top` rows. -/
def topBottlenecksByCpu (rows : List ServiceRow) (top : Nat) : List ServiceRow :=
  (List.insertionSort (fun a b => k_cpu b ≤ k_cpu a) (bottlenecks rows)).take top

/-- The rows printed under Top bottlenecks by Memory% (line 382). -/
def topBottlenecksByMem (rows : List ServiceRow) (top : Nat) : List ServiceRow :=
  (List.insertionSort (fun a b => k_mem b ≤ k_mem a) (bottlenecks rows)).take top

/-- The rows printed under Top over-provisioned (line 387): the first `top`
rows of the group in collection order, with no sorting. -/
def oversizedShown (rows : List ServiceRow) (top : Nat) : List ServiceRow :=
  (oversized rows).take top

/-- The rows printed under Running=0 (line 392): the first `top` rows of the
group in collection order, with no sorting. -/
def stoppedShown (rows : List ServiceRow) (top : Nat) : List ServiceRow :=
  (stopped rows).take top

/-- The over-provisioned rows as the spec says they are printed: this second
definition follows the words of spec section 4.4, which says every group is
printed top-N ranked by the relevant percentage in descending order.  It is
compared against `oversizedShown`, the embedding of the code, which does not
sort this group. -/
def spec_oversizedRanked (rows : List ServiceRow) (top : Nat) : List ServiceRow :=
  (List.insertionSort (fun a b => k_cpu b ≤ k_cpu a) (oversized rows)).take top

/-- The observable outcome of the tail of `main` (lines 570-578). -/
structure MainOutcome where
  exitCode : Nat
  wroteReport : Bool
  stderrMessage : Option String
deriving DecidableEq

/-- Embedding of the tail of `main` (lines 570-578): with no collected rows the
run prints to stderr and returns exit status 2 without writing the CSV; with at
least one row it writes the CSV and returns 0. -/
def mainFinish (all_rows : List ServiceRow) : MainOutcome :=
  if all_rows.isEmpty then
    { exitCode := 2
      wroteReport := false
      stderrMessage := some "No services found (or access failure)." }
  else
    { exitCode := 0
      wroteReport := true
      stderrMessage := none }

/-! ## Claims about `classify` -/

/-- Unfolding lemma for `classify` on a present value. -/
theorem classify_some_eq (v low_max med_max : Rat) :
    classify (some v) low_max med_max =
      if v < low_max then "low" else if v ≤ med_max then "medium" else "high" :=
  rfl

/-- Claim C1 counterexample: the claim quantifies over every pair of thresholds,
but with low_max = 50 and med_max = 10 the value 30 is strictly greater than
med_max while `classify` returns low, not high; likewise the boundary equation
classify(low_max, low_max, med_max) = medium fails there, giving high. -/
theorem classify_C1_counterexample :
    (10 : Rat) < 30 ∧
    classify (some 30) 50 10 ≠ "high" ∧
    classify (some 30) 50 10 = "low" ∧
    classify (some 50) 50 10 ≠ "medium" := by
  refine ⟨by norm_num, by decide, by decide, by decide⟩

/-- Claim C1, amended with the hypothesis low_max ≤ med_max (the
counterexample shows the unrestricted claim fails for inverted thresholds):
absent value gives no_data; a value strictly below low_max gives low; a value
between low_max and med_max inclusive gives medium, in particular at both
boundaries; and a value strictly above med_max gives high. -/
theorem classify_C1_amended (v low_max med_max : Rat) (h : low_max ≤ med_max) :
    classify none low_max med_max = "no_data" ∧
    (v < low_max → classify (some v) low_max med_max = "low") ∧
    (low_max ≤ v → v ≤ med_max → classify (some v) low_max med_max = "medium") ∧
    (med_max < v → classify (some v) low_max med_max = "high") ∧
    classify (some low_max) low_max med_max = "medium" ∧
    classify (some med_max) low_max med_max = "medium" := by
  refine ⟨rfl, ?_, ?_, ?_, ?_, ?_⟩
  · intro hv
    rw [classify_some_eq, if_pos hv]
  · intro h1 h2
    rw [classify_some_eq, if_neg (not_lt.2 h1), if_pos h2]
  · intro hv
    rw [classify_some_eq, if_neg (not_lt.2 (le_of_lt (lt_of_le_of_lt h hv))),
      if_neg (not_le.2 hv)]
  · rw [classify_some_eq, if_neg (lt_irrefl low_max), if_pos h]
  · rw [classify_some_eq, if_neg (not_lt.2 h), if_pos le_rfl]

/-- Witness for the amended claim C1 at the default CPU thresholds. -/
theorem classify_C1_amended_witness :
    classify (some 80) 40 69 = "high" ∧ classify (some 40) 40 69 = "medium" :=
  ⟨(classify_C1_amended 80 40 69 (by norm_num)).2.2.2.1 (by norm_num),
   (classify_C1_amended 40 40 69 (by norm_num)).2.2.2.2.1⟩

/-- Claim C10: with med_max strictly below low_max, `classify` of a present
value never returns medium and collapses to low below low_max and high from
low_max upward; consequently medium is reachable only when low_max ≤ med_max. -/
theorem classify_C10_inverted_thresholds (v low_max med_max : Rat) :
    (med_max < low_max →
      classify (some v) low_max med_max ≠ "medium" ∧
      classify (some v) low_max med_max = if v < low_max then "low" else "high") ∧
    (classify (some v) low_max med_max = "medium" → low_max ≤ med_max) := by
  refine ⟨fun hml => ⟨?_, ?_⟩, fun hm => ?_⟩
  · rw [classify_some_eq]
    split_ifs with h1 h2
    · decide
    · exact absurd (lt_of_le_of_lt h2 hml) h1
    · decide
  · rw [classify_some_eq]
    split_ifs with h1 h2
    · rfl
    · exact absurd (lt_of_le_of_lt h2 hml) h1
    · rfl
  · rw [classify_some_eq] at hm
    split_ifs at hm with h1 h2
    · exact absurd hm (by decide)
    · exact le_trans (not_lt.1 h1) h2
    · exact absurd hm (by decide)

/-- Witness for claim C10 at the inverted thresholds 50 and 10 with value 30. -/
theorem classify_C10_witness :
    classify (some 30) 50 10 ≠ "medium" ∧
    classify (some 30) 50 10 = if (30 : Rat) < 50 then "low" else "high" :=
  (classify_C10_inverted_thresholds 30 50 10).1 (by norm_num)

/-! ## Claims about `recommendation` -/

/-- Claim C2: `recommendation` is total over the four level strings for both
levels and every running count, always producing one of the eight rule
messages, and the guard chain is first-match-wins: for every positive running
count, high CPU with low memory produces the rule 2 CPU-bottleneck message and
not the rule 6 idle-memory message, even though both guards match. -/
theorem recommendation_C2_total_rule_order :
    (∀ cpu_level mem_level : String, cpu_level ∈ levelStrings → mem_level ∈ levelStrings →
      ∀ running : Nat, recommendation cpu_level mem_level running ∈ recommendationMessages) ∧
    (∀ running : Nat, 0 < running →
      recommendation "high" "low" running =
        "High CPU: possible bottleneck. Consider increasing CPU and/or enabling autoscaling (keep memory)." ∧
      recommendation "high" "low" running ≠
        "Idle memory: consider reducing memory (carefully) while maintaining CPU.") := by
  constructor
  · intro cpu_level mem_level hc hm running
    fin_cases hc <;> fin_cases hm <;> rcases running with _ | n <;>
      simp [recommendation, recommendationMessages]
  · intro running hr
    rcases running with _ | n
    · exact absurd hr (lt_irrefl 0)
    · exact ⟨by simp [recommendation], by simp [recommendation]⟩

/-- Witness for claim C2 at running count 5 with high CPU and low memory. -/
theorem recommendation_C2_witness :
    recommendation "high" "low" 5 ∈ recommendationMessages ∧
    recommendation "high" "low" 5 =
      "High CPU: possible bottleneck. Consider increasing CPU and/or enabling autoscaling (keep memory)." :=
  ⟨recommendation_C2_total_rule_order.1 "high" "low" (by decide) (by decide) 5,
   (recommendation_C2_total_rule_order.2 5 (by decide)).1⟩

/-- Claim C3: for every pair of level strings, a running count of 0 yields the
idle message; the running-count guard is first and takes precedence over every
other rule. -/
theorem recommendation_C3_running_zero (cpu_level mem_level : String) :
    recommendation cpu_level mem_level 0 =
      "Running=0. Service has no running tasks: review if it can be deactivated/removed or kept on-demand." :=
  rfl

/-! ## Claims about the metric resolver and metric averaging -/

/-- Claim C4: the resolver returns the ContainerInsights pair and label when
either of its two values is present, falls through to the AWS/ECS pair and
label only when both ContainerInsights values are absent and either AWS/ECS
value is present, and returns two absent values with the no_data label exactly
when all four lookups are absent. -/
theorem fetch_cpu_mem_pct_C4_fallback (ins_cpu ins_mem ecs_cpu ecs_mem : Option Rat) :
    (ins_cpu ≠ none ∨ ins_mem ≠ none →
      fetch_cpu_mem_pct ins_cpu ins_mem ecs_cpu ecs_mem =
        (ins_cpu, ins_mem, "ECS/ContainerInsights")) ∧
    (ins_cpu = none → ins_mem = none → ecs_cpu ≠ none ∨ ecs_mem ≠ none →
      fetch_cpu_mem_pct ins_cpu ins_mem ecs_cpu ecs_mem = (ecs_cpu, ecs_mem, "AWS/ECS")) ∧
    (fetch_cpu_mem_pct ins_cpu ins_mem ecs_cpu ecs_mem = (none, none, "no_data") ↔
      ins_cpu = none ∧ ins_mem = none ∧ ecs_cpu = none ∧ ecs_mem = none) := by
  rcases ins_cpu with _ | c1 <;> rcases ins_mem with _ | m1 <;>
    rcases ecs_cpu with _ | c2 <;> rcases ecs_mem with _ | m2 <;>
      simp [fetch_cpu_mem_pct]

/-- Witness for claim C4 at the example of the spec: the first source yields
no CPU value but a memory value of 55, so its pair and label are returned. -/
theorem fetch_cpu_mem_pct_C4_witness :
    fetch_cpu_mem_pct none (some 55) none none = (none, some 55, "ECS/ContainerInsights") :=
  (fetch_cpu_mem_pct_C4_fallback none (some 55) none none).1
    (Or.inr (Option.some_ne_none (55 : Rat)))

/-- Claim C6: a lookup failure raised by the CloudWatch collaborator is
swallowed inside `get_metric_avg` and yields `none`, the same result as an
empty datapoint list, and therefore classifies as no_data; it is never
propagated. -/
theorem get_metric_avg_C6_swallow (msg : String) (low_max med_max : Rat) :
    get_metric_avg (Except.error msg) = none ∧
    get_metric_avg (Except.error msg) = get_metric_avg (Except.ok []) ∧
    classify (get_metric_avg (Except.error msg)) low_max med_max = "no_data" :=
  ⟨rfl, rfl, rfl⟩

/-! ## Claims about row construction and the end of `main` -/

/-- Claim C8: in a row built by the collector, the CPU level is exactly
`classify` of the CPU percentage at the CPU thresholds, the memory level is
exactly `classify` of the memory percentage at the memory thresholds, and the
recommendation is exactly `recommendation` of those two levels and the running
count; the row stores the inputs unchanged, so no other state influences the
derived fields. -/
theorem build_service_row_C8_derived
    (account_id region cluster_name svc_name task_def_arn : String)
    (cpu_units memory_mb : Option Int) (cap_prov : String)
    (desired running pending : Nat) (cpu_pct mem_pct : Option Rat)
    (metrics_source : String) (cpu_low_max cpu_med_max mem_low_max mem_med_max : Rat) :
    (build_service_row account_id region cluster_name svc_name task_def_arn
        cpu_units memory_mb cap_prov desired running pending cpu_pct mem_pct
        metrics_source cpu_low_max cpu_med_max mem_low_max mem_med_max).cpu_level =
      classify cpu_pct cpu_low_max cpu_med_max ∧
    (build_service_row account_id region cluster_name svc_name task_def_arn
        cpu_units memory_mb cap_prov desired running pending cpu_pct mem_pct
        metrics_source cpu_low_max cpu_med_max mem_low_max mem_med_max).mem_level =
      classify mem_pct mem_low_max mem_med_max ∧
    (build_service_row account_id region cluster_name svc_name task_def_arn
        cpu_units memory_mb cap_prov desired running pending cpu_pct mem_pct
        metrics_source cpu_low_max cpu_med_max mem_low_max mem_med_max).action =
      recommendation (classify cpu_pct cpu_low_max cpu_med_max)
        (classify mem_pct mem_low_max mem_med_max) running ∧
    (build_service_row account_id region cluster_name svc_name task_def_arn
        cpu_units memory_mb cap_prov desired running pending cpu_pct mem_pct
        metrics_source cpu_low_max cpu_med_max mem_low_max mem_med_max).cpu_pct = cpu_pct ∧
    (build_service_row account_id region cluster_name svc_name task_def_arn
        cpu_units memory_mb cap_prov desired running pending cpu_pct mem_pct
        metrics_source cpu_low_max cpu_med_max mem_low_max mem_med_max).mem_pct = mem_pct ∧
    (build_service_row account_id region cluster_name svc_name task_def_arn
        cpu_units memory_mb cap_prov desired running pending cpu_pct mem_pct
        metrics_source cpu_low_max cpu_med_max mem_low_max mem_med_max).running = running :=
  ⟨rfl, rfl, rfl, rfl, rfl, rfl⟩

/-- A concrete row, used to instantiate theorems about row collections. -/
def sampleRow : ServiceRow :=
  build_service_row "company-dev" "us-east-1" "api-cluster" "svc" "arn" none none ""
    1 1 0 none none "no_data" 40 69 35 69

/-- Claim C7: with zero collected rows the run returns the distinct non-zero
exit status 2, emits a stderr message and writes no report; with at least one
row it writes the report and returns exit status 0. -/
theorem mainFinish_C7_zero_rows (all_rows : List ServiceRow) :
    (all_rows = [] →
      mainFinish all_rows =
        { exitCode := 2, wroteReport := false,
          stderrMessage := some "No services found (or access failure)." } ∧
      (mainFinish all_rows).exitCode ≠ 0) ∧
    (all_rows ≠ [] →
      mainFinish all_rows = { exitCode := 0, wroteReport := true, stderrMessage := none }) := by
  cases all_rows with
  | nil => exact ⟨fun _ => ⟨rfl, by decide⟩, fun h => absurd rfl h⟩
  | cons a l => exact ⟨fun h => absurd h (List.cons_ne_nil a l), fun _ => rfl⟩

/-- Witness for claim C7 on the empty collection and on a one-row collection. -/
theorem mainFinish_C7_witness :
    mainFinish [] =
      { exitCode := 2, wroteReport := false,
        stderrMessage := some "No services found (or access failure)." } ∧
    mainFinish [sampleRow] = { exitCode := 0, wroteReport := true, stderrMessage := none } :=
  ⟨((mainFinish_C7_zero_rows []).1 rfl).1,
   (mainFinish_C7_zero_rows [sampleRow]).2 (List.cons_ne_nil _ _)⟩

/-! ## Claims about `print_summary` -/

/-- A concrete over-provisioned row with CPU 10 percent and memory 10 percent. -/
def rowA : ServiceRow :=
  build_service_row "company-dev" "us-east-1" "api-cluster" "svc-a" "arn-a" none none ""
    1 1 0 (some 10) (some 10) "ECS/ContainerInsights" 40 69 35 69

/-- A concrete over-provisioned row with CPU 20 percent and memory 20 percent. -/
def rowB : ServiceRow :=
  build_service_row "company-dev" "us-east-1" "api-cluster" "svc-b" "arn-b" none none ""
    1 1 0 (some 20) (some 20) "ECS/ContainerInsights" 40 69 35 69

/-- Claim C5 counterexample: on the two-row collection below, both rows fall in
the over-provisioned group; the code prints them in collection order, which is
ascending in CPU percentage, so the printed list is not ranked by the relevant
percentage in descending order, and differs from the ranking the spec
describes. -/
theorem print_summary_C5_counterexample :
    ¬ List.Sorted (fun a b => k_cpu b ≤ k_cpu a) (oversizedShown [rowA, rowB] 2) ∧
    oversizedShown [rowA, rowB] 2 ≠ spec_oversizedRanked [rowA, rowB] 2 := by
  refine ⟨by decide, by decide⟩

/-- Claim C5, amended: the summarizer partitions rows into the three stated
groups (membership characterized below); the two bottleneck listings are the
top-N of the group ranked by the CPU and memory sort keys in descending order,
where the key maps an absent percentage to the sentinel -1; but the
over-provisioned and idle groups are printed as the first N rows of the group
in collection order, without ranking. -/
theorem print_summary_C5_amended (rows : List ServiceRow) (top : Nat) :
    (∀ r, r ∈ bottlenecks rows ↔
      r ∈ rows ∧ (0 < r.running ∧ (r.cpu_level = "high" ∨ r.mem_level = "high"))) ∧
    (∀ r, r ∈ oversized rows ↔
      r ∈ rows ∧ (0 < r.running ∧ r.cpu_level = "low" ∧ r.mem_level = "low")) ∧
    (∀ r, r ∈ stopped rows ↔ r ∈ rows ∧ r.running = 0) ∧
    List.Sorted (fun a b => k_cpu b ≤ k_cpu a) (topBottlenecksByCpu rows top) ∧
    List.Sorted (fun a b => k_mem b ≤ k_mem a) (topBottlenecksByMem rows top) ∧
    (List.insertionSort (fun a b => k_cpu b ≤ k_cpu a) (bottlenecks rows)).Perm
      (bottlenecks rows) ∧
    (List.insertionSort (fun a b => k_mem b ≤ k_mem a) (bottlenecks rows)).Perm
      (bottlenecks rows) ∧
    ((topBottlenecksByCpu rows top).all fun r => decide (r ∈ bottlenecks rows)) = true ∧
    ((topBottlenecksByMem rows top).all fun r => decide (r ∈ bottlenecks rows)) = true ∧
    (topBottlenecksByCpu rows top).length ≤ top ∧
    (topBottlenecksByMem rows top).length ≤ top ∧
    oversizedShown rows top = (oversized rows).take top ∧
    stoppedShown rows top = (stopped rows).take top := by
  haveI totC : IsTotal ServiceRow (fun a b => k_cpu b ≤ k_cpu a) :=
    ⟨fun a b => le_total (k_cpu b) (k_cpu a)⟩
  haveI trnC : IsTrans ServiceRow (fun a b => k_cpu b ≤ k_cpu a) :=
    ⟨fun _ _ _ hab hbc => le_trans hbc hab⟩
  haveI totM : IsTotal ServiceRow (fun a b => k_mem b ≤ k_mem a) :=
    ⟨fun a b => le_total (k_mem b) (k_mem a)⟩
  haveI trnM : IsTrans ServiceRow (fun a b => k_mem b ≤ k_mem a) :=
    ⟨fun _ _ _ hab hbc => le_trans hbc hab⟩
  refine ⟨?_, ?_, ?_, ?_, ?_, ?_, ?_, ?_, ?_, ?_, ?_, rfl, rfl⟩
  · intro r
    simp [bottlenecks, List.mem_filter]
  · intro r
    simp [oversized, List.mem_filter, and_assoc]
  · intro r
    simp [stopped, List.mem_filter]
  · exact List.Pairwise.sublist (List.take_sublist top _) (List.sorted_insertionSort _ _)
  · exact List.Pairwise.sublist (List.take_sublist top _) (List.sorted_insertionSort _ _)
  · exact List.perm_insertionSort _ _
  · exact List.perm_insertionSort _ _
  · refine List.all_eq_true.2 fun r hr => decide_eq_true ?_
    exact (List.perm_insertionSort _ _).mem_iff.1 ((List.take_sublist top _).subset hr)
  · refine List.all_eq_true.2 fun r hr => decide_eq_true ?_
    exact (List.perm_insertionSort _ _).mem_iff.1 ((List.take_sublist top _).subset hr)
  · rw [topBottlenecksByCpu, List.length_take]
    exact min_le_left _ _
  · rw [topBottlenecksByMem, List.length_take]
    exact min_le_left _ _

/-- Claim C9: the three summary groups are pairwise disjoint, so every row
appears in at most one of them; in particular a row with running count 0 is in
neither of the first two groups, and no row is simultaneously bottlenecked and
over-provisioned. -/
theorem print_summary_C9_groups_disjoint (rows : List ServiceRow) (r : ServiceRow) :
    (decide (r ∈ bottlenecks rows) && decide (r ∈ oversized rows)) = false ∧
    (decide (r ∈ bottlenecks rows) && decide (r ∈ stopped rows)) = false ∧
    (decide (r ∈ oversized rows) && decide (r ∈ stopped rows)) = false ∧
    ((if r ∈ bottlenecks rows then 1 else 0) + (if r ∈ oversized rows then 1 else 0) +
      (if r ∈ stopped rows then 1 else 0) : Nat) ≤ 1 := by
  have hb : r ∈ bottlenecks rows → 0 < r.running ∧ (r.cpu_level = "high" ∨ r.mem_level = "high") := by
    intro h
    simpa [bottlenecks] using (List.mem_filter.1 h).2
  have ho : r ∈ oversized rows → 0 < r.running ∧ r.cpu_level = "low" ∧ r.mem_level = "low" := by
    intro h
    simpa [oversized] using (List.mem_filter.1 h).2
  have hs : r ∈ stopped rows → r.running = 0 := by
    intro h
    simpa [stopped] using (List.mem_filter.1 h).2
  have d1 : ¬(r ∈ bottlenecks rows ∧ r ∈ oversized rows) := by
    rintro ⟨h1, h2⟩
    obtain ⟨-, hcOrM⟩ := hb h1
    obtain ⟨-, hcl, hml⟩ := ho h2
    rcases hcOrM with hch | hmh
    · rw [hcl] at hch
      exact absurd hch (by decide)
    · rw [hml] at hmh
      exact absurd hmh (by decide)
  have d2 : ¬(r ∈ bottlenecks rows ∧ r ∈ stopped rows) := by
    rintro ⟨h1, h3⟩
    obtain ⟨hr, -⟩ := hb h1
    rw [hs h3] at hr
    exact absurd hr (lt_irrefl 0)
  have d3 : ¬(r ∈ oversized rows ∧ r ∈ stopped rows) := by
    rintro ⟨h2, h3⟩
    obtain ⟨hr, -⟩ := ho h2
    rw [hs h3] at hr
    exact absurd hr (lt_irrefl 0)
  by_cases h1 : r ∈ bottlenecks rows
  · have h2 : ¬ r ∈ oversized rows := fun hx => d1 ⟨h1, hx⟩
    have h3 : ¬ r ∈ stopped rows := fun hx => d2 ⟨h1, hx⟩
    simp [h1, h2, h3]
  · by_cases h2 : r ∈ oversized rows
    · have h3 : ¬ r ∈ stopped rows := fun hx => d3 ⟨h2, hx⟩
      simp [h1, h2, h3]
    · by_cases h3 : r ∈ stopped rows <;> simp [h1, h2, h3]

end EcsInventory
